import Mathlib

set_option maxHeartbeats 1000000

/-!
Shallow embedding of the installation controller in
magefiles/installation/install.go.

External collaborators (the Kubernetes API, go-git, the filesystem, the
process environment, the clock and the random source) are modelled by a
World record that fixes the outcome of every external call the code can
make.  Every modelled function returns, next to its Go return value, the
list of external calls it performed (its event trace), so that claims
about which calls happen, and in which order, can be stated directly.
-/

/-- Process environment: maps a variable name to its value, with the empty
string standing for an unset variable (as os.Getenv reports unset). -/
abbrev Env := String → String

/-- utils.GetEnv (pkg/utils): current value of the variable, or the default
when the variable is unset.  Under the empty-means-unset convention this is
a test against the empty string. -/
def getEnvD (env : Env) (key dflt : String) : String :=
  if env key = "" then dflt else env key

/-- Index of a character in the standard base64 alphabet, as in the
decode map of encoding/base64 StdEncoding; none for every character
outside the alphabet (including the padding character). -/
def b64Val (c : Char) : Option Nat :=
  if 'A' ≤ c ∧ c ≤ 'Z' then some (c.toNat - 65)
  else if 'a' ≤ c ∧ c ≤ 'z' then some (c.toNat - 97 + 26)
  else if '0' ≤ c ∧ c ≤ '9' then some (c.toNat - 48 + 52)
  else if c = '+' then some 62
  else if c = '/' then some 63
  else none

/-- Quantum-by-quantum base64 decoding, mirroring decodeQuantum of Go
encoding/base64 for StdEncoding (padding required), after carriage returns
and newlines have been filtered out.  Returns none exactly where Go
reports a CorruptInputError: an input that is not a whole number of
4-character quanta, a character outside the alphabet, padding in the first
two positions of a quantum, a lone = where == is needed, or trailing
characters after a padded final quantum. -/
def b64DecodeQuanta : List Char → Option (List Nat)
  | [] => some []
  | c0 :: c1 :: c2 :: c3 :: rest =>
    match b64Val c0, b64Val c1 with
    | some v0, some v1 =>
      match b64Val c2 with
      | some v2 =>
        match b64Val c3 with
        | some v3 =>
          (b64DecodeQuanta rest).map (fun tl =>
            (v0 * 4 + v1 / 16) :: ((v1 % 16) * 16 + v2 / 4) ::
              ((v2 % 4) * 64 + v3) :: tl)
        | none =>
          if c3 = '=' ∧ rest = [] then
            some [v0 * 4 + v1 / 16, (v1 % 16) * 16 + v2 / 4]
          else none
      | none =>
        if c2 = '=' ∧ c3 = '=' ∧ rest = [] then
          some [v0 * 4 + v1 / 16]
        else none
    | _, _ => none
  | _ => none

/-- base64.StdEncoding.DecodeString: bytes of the decoded string, or none
when Go returns a non-nil error.  Go ignores carriage returns and newlines
everywhere in the input, hence the filter. -/
def base64StdDecode (s : String) : Option (List Nat) :=
  b64DecodeQuanta (s.data.filter (fun c => !(c == '\n' || c == '\r')))

/-- Kubernetes API error, as far as the code can observe it:
k8sErrors.IsNotFound distinguishes the notFound case. -/
inductive KErr where
  | notFound
  | other (msg : String)
deriving DecidableEq, Repr

/-- Message carried by a Kubernetes error (what %v formats). -/
def kMsg : KErr → String
  | .notFound => "not found"
  | .other m => m

/-- Payload of a Kubernetes secret: association list from key to bytes. -/
abbrev SecretData := List (String × List Nat)

/-- A Kubernetes deployment, split into the two fields the code touches
(annotations of its object metadata, replica count of its spec) and an
opaque remainder standing for every other field. -/
structure Deployment where
  annotations : List (String × String)
  replicas : Option Int
  rest : String
deriving DecidableEq, Repr

/-- One external call made by the code.  Filesystem, git, process and
cluster calls all appear in a single trace, in program order. -/
inductive Event where
  | statDir (path : String)
  | removeAll (path : String)
  | gitClone (url ref dir : String)
  | createRemote (remoteName url : String)
  | execCommand (cmd : String) (args : List String) (dir : String)
  | nsGet (ns : String)
  | nsCreate (ns : String)
  | secretGet (ns name : String)
  | secretCreate (ns name : String) (data : SecretData)
  | secretUpdate (ns name : String) (data : SecretData)
  | cmPatch (ns name url : String)
  | deployGet (ns name : String)
  | deployUpdate (ns name : String) (d : Deployment)
deriving DecidableEq, Repr

/-- The distinct error values the installation functions can return;
each constructor corresponds to one return-an-error site in install.go. -/
inductive InstallErr where
  | removeFolder (dir : String)
  | gitRemote (msg : String)
  | bootstrap (msg : String)
  | quayTokenMissing
  | quayTokenDecode
  | nsCreateFailed (ns msg : String)
  | nsGetFailed (ns msg : String)
  | secretCreateFailed (name msg : String)
  | secretUpdateFailed (name msg : String)
deriving DecidableEq, Repr

/-- A Go runtime panic (here only the nil-pointer dereference). -/
inductive GoPanic where
  | nilPointerDeref
deriving DecidableEq, Repr

/-- Outcome of os.Stat on the clone directory: a FileInfo (with its IsDir
bit), an error satisfying os.IsNotExist, or any other error, in which case
the returned FileInfo is nil. -/
inductive StatResult where
  | found (isDir : Bool)
  | errNotExist
  | errOther (msg : String)
deriving DecidableEq, Repr

/-- Outcomes of every external call the code can make, fixed up front.
cloneRepo records whether git.PlainClone returned a non-nil repository
handle, and cloneErr its error value; in go-git v5 a network, auth or
missing-ref failure happens after PlainInit, so the handle is non-nil
there, while the error is non-nil.  The field cloneErr is read by no
modelled function: install.go binds the error of PlainClone to the blank
identifier. -/
structure World where
  env : Env
  rng : Nat → Nat
  now : String
  statRes : StatResult
  removeAllOk : Bool
  cloneRepo : Bool
  cloneErr : Option String
  createRemoteRes : Except String Unit
  bootstrapRes : Except String Unit
  nsGetRes : Except KErr Unit
  nsCreateRes : Except KErr Unit
  secretGetRes : Except KErr Unit
  secretCreateRes : Except KErr Unit
  secretUpdateRes : Except KErr Unit
  cmPatchRes : Except KErr Unit
  deployGetRes : Except KErr Deployment
  deployUpdateRes : Except KErr Unit

/-- The InstallAppStudio configuration record (install.go), minus the
opaque Kubernetes client handle, which lives in the World. -/
structure InstallAppStudio where
  tmpDirectory : String
  infraDeploymentsCloneDir : String
  infraDeploymentsBranch : String
  infraDeploymentsOrganizationName : String
  localForkName : String
  localGithubForkOrganization : String
  e2eApplicationsNamespace : String
  quayToken : String
  defaultImageQuayOrg : String
  defaultImageQuayOrgOAuth2Token : String
  defaultImageTagExpiration : String

/-- constants.QuayRepositorySecretNamespace (pkg/constants, outside this
module).  Modelled from the spec: section 8 names the namespace
quay-secret-ns.  No claim depends on the literal value. -/
def quayRepositorySecretNamespace : String := "quay-secret-ns"

/-- constants.QuayRepositorySecretName (pkg/constants, outside this
module).  Modelled from the spec: section 8 names the secret quay-secret.
No claim depends on the literal value. -/
def quayRepositorySecretName : String := "quay-secret"

/-- corev1.DockerConfigJsonKey, the fixed data key of a
kubernetes.io/dockerconfigjson secret. -/
def dockerConfigJsonKey : String := ".dockerconfigjson"

/-- The secret half of createE2EQuaySecret (install.go lines 183 to 211):
get the secret; on success fall through and return nil; on a not-found
error create the secret with the decoded token under the docker config
key; on any other get error submit an update carrying the decoded token
(built on the zero-valued secret the failed get returned). -/
def secretPhase (w : World) (decodedToken : List Nat) (evs : List Event) :
    Except InstallErr Unit × List Event :=
  let ns := quayRepositorySecretNamespace
  let name := quayRepositorySecretName
  let evs := evs ++ [Event.secretGet ns name]
  match w.secretGetRes with
  | .ok _ => (.ok (), evs)
  | .error e =>
    if e = .notFound then
      let data : SecretData := [(dockerConfigJsonKey, decodedToken)]
      let evs := evs ++ [Event.secretCreate ns name data]
      match w.secretCreateRes with
      | .ok _ => (.ok (), evs)
      | .error e2 => (.error (.secretCreateFailed name (kMsg e2)), evs)
    else
      let data : SecretData := [(dockerConfigJsonKey, decodedToken)]
      let evs := evs ++ [Event.secretUpdate ns name data]
      match w.secretUpdateRes with
      | .ok _ => (.ok (), evs)
      | .error e2 => (.error (.secretUpdateFailed name (kMsg e2)), evs)

/-- createE2EQuaySecret (install.go lines 155 to 214): read QUAY_TOKEN
from the environment, fail if empty; base64-decode it, fail on a decode
error; get-or-create the namespace; then run the secret phase. -/
def createE2EQuaySecret (w : World) : Except InstallErr Unit × List Event :=
  let quayToken := w.env "QUAY_TOKEN"
  if quayToken = "" then (.error .quayTokenMissing, [])
  else
    match base64StdDecode quayToken with
    | none => (.error .quayTokenDecode, [])
    | some decodedToken =>
      let ns := quayRepositorySecretNamespace
      match w.nsGetRes with
      | .ok _ => secretPhase w decodedToken [Event.nsGet ns]
      | .error e =>
        if e = .notFound then
          match w.nsCreateRes with
          | .ok _ => secretPhase w decodedToken [Event.nsGet ns, Event.nsCreate ns]
          | .error e2 =>
            (.error (.nsCreateFailed ns (kMsg e2)), [Event.nsGet ns, Event.nsCreate ns])
        else (.error (.nsGetFailed ns (kMsg e)), [Event.nsGet ns])

/-- Cluster-side view of the quay secret: the data the secret holds after
a trace of calls, starting from an initial state (none when absent).
A create or update of the quay secret replaces the stored data; every
other call leaves it unchanged. -/
def secretAfter (init : Option SecretData) (evs : List Event) : Option SecretData :=
  evs.foldl (fun cur e =>
    match e with
    | .secretCreate _ _ d => some d
    | .secretUpdate _ _ d => some d
    | _ => cur) init

/-- A concrete world in which the namespace and the secret both already
exist (both gets succeed), QUAY_TOKEN decodes fine, and every other call
would succeed. -/
def wExisting : World :=
  { env := fun k => if k = "QUAY_TOKEN" then "eyJhIjoxfQ==" else ""
    rng := fun j => j
    now := "2024-01-01T00:00:00Z"
    statRes := .errNotExist
    removeAllOk := true
    cloneRepo := true
    cloneErr := none
    createRemoteRes := .ok ()
    bootstrapRes := .ok ()
    nsGetRes := .ok ()
    nsCreateRes := .ok ()
    secretGetRes := .ok ()
    secretCreateRes := .ok ()
    secretUpdateRes := .ok ()
    cmPatchRes := .ok ()
    deployGetRes := .ok { annotations := [], replicas := some 1, rest := "r" }
    deployUpdateRes := .ok () }

/-- C1: the claim says that when the namespace and the secret both exist
(the secret get succeeds), createE2EQuaySecret updates the secret and
leaves its docker-config-json payload equal to the decoded QUAY_TOKEN.
The code does the opposite: when the get succeeds it performs neither an
update nor a create (the update sits in the branch taken when the get
fails with a non-notFound error), so the pre-existing payload survives
unchanged and differs from the decoded token.  Concretely, with
QUAY_TOKEN = "eyJhIjoxfQ==" and an existing payload [1, 2, 3]: the run
returns nil, its trace is exactly the namespace get and the secret get
(no update, no create), and the payload afterwards is still [1, 2, 3],
not the decoded token. -/
theorem C1_secret_present_not_updated :
    (createE2EQuaySecret wExisting).1 = .ok () ∧
    (createE2EQuaySecret wExisting).2 =
      [Event.nsGet quayRepositorySecretNamespace,
       Event.secretGet quayRepositorySecretNamespace quayRepositorySecretName] ∧
    secretAfter (some [(dockerConfigJsonKey, [1, 2, 3])])
        (createE2EQuaySecret wExisting).2 =
      some [(dockerConfigJsonKey, [1, 2, 3])] ∧
    base64StdDecode "eyJhIjoxfQ==" = some [123, 34, 97, 34, 58, 49, 125] ∧
    some [(dockerConfigJsonKey, [1, 2, 3])] ≠
      some [(dockerConfigJsonKey, [123, 34, 97, 34, 58, 49, 125])] := by
  refine ⟨rfl, rfl, rfl, by decide, by decide⟩

/-- C4: with QUAY_TOKEN unset or empty, createE2EQuaySecret returns the
credential-missing error and performs no cluster call at all. -/
theorem C4_quay_token_missing (w : World) (h : w.env "QUAY_TOKEN" = "") :
    createE2EQuaySecret w = (.error .quayTokenMissing, []) := by
  simp [createE2EQuaySecret, h]

/-- Witness for C4 at a concrete world with an empty environment. -/
theorem C4_quay_token_missing_witness :
    ({ wExisting with env := fun _ => "" } : World).env "QUAY_TOKEN" = "" ∧
    createE2EQuaySecret { wExisting with env := fun _ => "" } =
      (.error .quayTokenMissing, []) :=
  ⟨rfl, C4_quay_token_missing _ rfl⟩

/-- C5: with QUAY_TOKEN non-empty but not valid standard base64,
createE2EQuaySecret returns the decode error and performs no cluster
call at all. -/
theorem C5_quay_token_not_base64 (w : World)
    (h1 : ¬ w.env "QUAY_TOKEN" = "")
    (h2 : base64StdDecode (w.env "QUAY_TOKEN") = none) :
    createE2EQuaySecret w = (.error .quayTokenDecode, []) := by
  simp [createE2EQuaySecret, h1, h2]

/-- Witness for C5 at a concrete world whose QUAY_TOKEN is "!!!". -/
theorem C5_quay_token_not_base64_witness :
    (¬ ({ wExisting with env := fun _ => "!!!" } : World).env "QUAY_TOKEN" = "") ∧
    base64StdDecode "!!!" = none ∧
    createE2EQuaySecret { wExisting with env := fun _ => "!!!" } =
      (.error .quayTokenDecode, []) :=
  ⟨by decide, by decide, C5_quay_token_not_base64 _ (by decide) (by decide)⟩

/-- Lookup in an association list (observable content of a Go map). -/
def alookup : List (String × String) → String → Option String
  | [], _ => none
  | p :: rest, k => if k = p.1 then some p.2 else alookup rest k

/-- Remove every entry with the given key. -/
def eraseKey : List (String × String) → String → List (String × String)
  | [], _ => []
  | p :: rest, k => if p.1 = k then eraseKey rest k else p :: eraseKey rest k

/-- Go map assignment m[k] = v, observed through lookups: the key now maps
to v and every other key is untouched. -/
def mapSet (m : List (String × String)) (k v : String) : List (String × String) :=
  (k, v) :: eraseKey m k

theorem alookup_eraseKey (m : List (String × String)) (k k2 : String)
    (h : k2 ≠ k) : alookup (eraseKey m k) k2 = alookup m k2 := by
  induction m with
  | nil => rfl
  | cons p rest ih =>
    by_cases hp : p.1 = k
    · simp [eraseKey, hp, alookup, h, ih]
    · by_cases hk2 : k2 = p.1
      · simp [eraseKey, hp, alookup, hk2]
      · simp [eraseKey, hp, alookup, hk2, ih]

theorem alookup_mapSet (m : List (String × String)) (k v k2 : String) :
    alookup (mapSet m k v) k2 = if k2 = k then some v else alookup m k2 := by
  by_cases h : k2 = k
  · simp [mapSet, alookup, h]
  · simp [mapSet, alookup, h, alookup_eraseKey m k k2 h]

/-- The restart annotation key stamped by addSPIOauthRedirectProxyUrl. -/
def restartedAtKey : String := "kubectl.kubernetes.io/restartedAt"

/-- The deployment submitted by addSPIOauthRedirectProxyUrl
(install.go lines 247 to 255): a deep copy of the fetched deployment, with
the restart annotation set to the formatted current time, the replica
count pointed at zero, and everything else untouched. -/
def restartedDeployment (d : Deployment) (now : String) : Deployment :=
  { d with
    annotations := mapSet d.annotations restartedAtKey now
    replicas := some 0 }

/-- addSPIOauthRedirectProxyUrl (install.go lines 217 to 263): no-op when
OAUTH_REDIRECT_PROXY_URL is unset; otherwise merge-patch the configmap
(stop on failure), fetch the deployment (stop on failure), and update the
deployment with the restart stamp and zero replicas (result ignored).
Every failure is only logged: the function returns no error. -/
def addSPIOauthRedirectProxyUrl (w : World) : Unit × List Event :=
  let url := w.env "OAUTH_REDIRECT_PROXY_URL"
  if url = "" then ((), [])
  else
    let ns := "spi-system"
    let configMapName := "spi-oauth-service-environment-config"
    let deploymentName := "spi-oauth-service"
    let evs := [Event.cmPatch ns configMapName url]
    match w.cmPatchRes with
    | .error _ => ((), evs)
    | .ok _ =>
      let evs := evs ++ [Event.deployGet ns deploymentName]
      match w.deployGetRes with
      | .error _ => ((), evs)
      | .ok d =>
        ((), evs ++ [Event.deployUpdate ns deploymentName (restartedDeployment d w.now)])

/-- C6: when the configmap patch succeeds but the deployment fetch fails,
the trace of addSPIOauthRedirectProxyUrl is exactly the patch and the
fetch: no deployment update is submitted, and the function (whose return
type is empty of errors) hands nothing back to the caller. -/
theorem C6_deploy_fetch_failure_swallowed (w : World) (e : KErr)
    (h1 : ¬ w.env "OAUTH_REDIRECT_PROXY_URL" = "")
    (h2 : w.cmPatchRes = .ok ())
    (h3 : w.deployGetRes = .error e) :
    addSPIOauthRedirectProxyUrl w =
      ((), [Event.cmPatch "spi-system" "spi-oauth-service-environment-config"
              (w.env "OAUTH_REDIRECT_PROXY_URL"),
            Event.deployGet "spi-system" "spi-oauth-service"]) := by
  simp [addSPIOauthRedirectProxyUrl, h1, h2, h3]

/-- Witness for C6 at a concrete world whose deployment fetch fails. -/
theorem C6_deploy_fetch_failure_swallowed_witness :
    (¬ ({ wExisting with
            env := fun k => if k = "OAUTH_REDIRECT_PROXY_URL" then "https://proxy" else "",
            deployGetRes := .error (.other "boom") } : World).env
          "OAUTH_REDIRECT_PROXY_URL" = "") ∧
    addSPIOauthRedirectProxyUrl
        { wExisting with
            env := fun k => if k = "OAUTH_REDIRECT_PROXY_URL" then "https://proxy" else "",
            deployGetRes := .error (.other "boom") } =
      ((), [Event.cmPatch "spi-system" "spi-oauth-service-environment-config" "https://proxy",
            Event.deployGet "spi-system" "spi-oauth-service"]) :=
  ⟨by decide, C6_deploy_fetch_failure_swallowed _ (.other "boom") (by decide) rfl rfl⟩

/-- C8: when the patch and the fetch both succeed, the update submits a
copy of the fetched deployment that differs from it in exactly two
places: the restart annotation now reads the formatted current time, and
the replica count is zero.  Every other annotation key and the whole
remainder of the deployment are unchanged, and the trace is exactly
patch, fetch, update. -/
theorem C8_restart_update_frame (w : World) (d : Deployment)
    (h1 : ¬ w.env "OAUTH_REDIRECT_PROXY_URL" = "")
    (h2 : w.cmPatchRes = .ok ())
    (h3 : w.deployGetRes = .ok d) :
    addSPIOauthRedirectProxyUrl w =
      ((), [Event.cmPatch "spi-system" "spi-oauth-service-environment-config"
              (w.env "OAUTH_REDIRECT_PROXY_URL"),
            Event.deployGet "spi-system" "spi-oauth-service",
            Event.deployUpdate "spi-system" "spi-oauth-service"
              (restartedDeployment d w.now)]) ∧
    alookup (restartedDeployment d w.now).annotations restartedAtKey = some w.now ∧
    (∀ k, k ≠ restartedAtKey →
      alookup (restartedDeployment d w.now).annotations k = alookup d.annotations k) ∧
    (restartedDeployment d w.now).replicas = some 0 ∧
    (restartedDeployment d w.now).rest = d.rest := by
  refine ⟨by simp [addSPIOauthRedirectProxyUrl, h1, h2, h3], ?_, ?_, rfl, rfl⟩
  · simp [restartedDeployment, alookup_mapSet]
  · intro k hk
    simp [restartedDeployment, alookup_mapSet, hk]

/-- Witness for C8 at a concrete world and deployment. -/
theorem C8_restart_update_frame_witness :
    (¬ ({ wExisting with
            env := fun k => if k = "OAUTH_REDIRECT_PROXY_URL" then "https://proxy" else "",
            deployGetRes := .ok { annotations := [("a", "b")], replicas := some 3, rest := "r" } }
          : World).env "OAUTH_REDIRECT_PROXY_URL" = "") ∧
    alookup (restartedDeployment
        { annotations := [("a", "b")], replicas := some 3, rest := "r" }
        "2024-01-01T00:00:00Z").annotations restartedAtKey =
      some "2024-01-01T00:00:00Z" ∧
    (restartedDeployment
        { annotations := [("a", "b")], replicas := some 3, rest := "r" }
        "2024-01-01T00:00:00Z").replicas = some 0 :=
  ⟨by decide,
   (C8_restart_update_frame
      { wExisting with
          env := fun k => if k = "OAUTH_REDIRECT_PROXY_URL" then "https://proxy" else "",
          deployGetRes := .ok { annotations := [("a", "b")], replicas := some 3, rest := "r" } }
      { annotations := [("a", "b")], replicas := some 3, rest := "r" }
      (by decide) rfl rfl).2.1,
   (C8_restart_update_frame
      { wExisting with
          env := fun k => if k = "OAUTH_REDIRECT_PROXY_URL" then "https://proxy" else "",
          deployGetRes := .ok { annotations := [("a", "b")], replicas := some 3, rest := "r" } }
      { annotations := [("a", "b")], replicas := some 3, rest := "r" }
      (by decide) rfl rfl).2.2.2.1⟩

/-- Directory preparation of cloneInfraDeployments (install.go lines 131
to 140).  The Go condition is !os.IsNotExist(err) && dirInfo.IsDir() with
short-circuit evaluation: when os.Stat fails with an error other than
not-exist, the left conjunct holds and IsDir() dereferences the nil
FileInfo, a runtime panic; when the error is not-exist the condition is
false without touching dirInfo; when os.Stat succeeds the IsDir bit
decides whether os.RemoveAll runs, and a removal failure returns the
remove-folder error. -/
def dirPrepPhase (i : InstallAppStudio) (w : World) :
    Except GoPanic (Except InstallErr Unit × List Event) :=
  let dir := i.infraDeploymentsCloneDir
  match w.statRes with
  | .errOther _ => .error .nilPointerDeref
  | .errNotExist => .ok (.ok (), [Event.statDir dir])
  | .found isDir =>
    if isDir then
      if w.removeAllOk then .ok (.ok (), [Event.statDir dir, Event.removeAll dir])
      else .ok (.error (.removeFolder dir), [Event.statDir dir, Event.removeAll dir])
    else .ok (.ok (), [Event.statDir dir])

/-- The value cloneInfraDeployments returns once repo.CreateRemote has
run: its error, when it fails, is handed to the caller unwrapped. -/
def remoteOutcome : Except String Unit → Except InstallErr Unit
  | .ok _ => .ok ()
  | .error m => .error (.gitRemote m)

/-- cloneInfraDeployments (install.go lines 130 to 152): prepare the
directory, then clone.  The error of git.PlainClone is bound to the blank
identifier, so nothing here reads cloneErr; the returned value is the
result of repo.CreateRemote on the returned handle.  When PlainClone
hands back a nil handle, CreateRemote dereferences it, a runtime panic. -/
def cloneInfraDeployments (i : InstallAppStudio) (w : World) :
    Except GoPanic (Except InstallErr Unit × List Event) :=
  match dirPrepPhase i w with
  | .error p => .error p
  | .ok (.error e, evs) => .ok (.error e, evs)
  | .ok (.ok _, evs) =>
    let dir := i.infraDeploymentsCloneDir
    let url := "https://github.com/" ++ i.infraDeploymentsOrganizationName ++ "/infra-deployments"
    let refName := "refs/heads/" ++ i.infraDeploymentsBranch
    let evs := evs ++ [Event.gitClone url refName dir]
    if w.cloneRepo then
      let forkUrl := "https://github.com/" ++ i.localGithubForkOrganization ++ "/infra-deployments.git"
      let evs := evs ++ [Event.createRemote i.localForkName forkUrl]
      match w.createRemoteRes with
      | .ok _ => .ok (.ok (), evs)
      | .error m => .ok (.error (.gitRemote m), evs)
    else .error .nilPointerDeref

/-- Events performed by a possibly-panicking run (none when it panics
before returning). -/
def resultEvents : Except GoPanic (Except InstallErr Unit × List Event) → List Event
  | .error _ => []
  | .ok (_, evs) => evs

/-- A fixed concrete configuration for witnesses. -/
def i0 : InstallAppStudio :=
  { tmpDirectory := "tmp"
    infraDeploymentsCloneDir := "/cwd/tmp/infra-deployments"
    infraDeploymentsBranch := "main"
    infraDeploymentsOrganizationName := "acme"
    localForkName := "qe"
    localGithubForkOrganization := "acme-qe"
    e2eApplicationsNamespace := "appstudio-e2e-test"
    quayToken := "eyJhIjoxfQ=="
    defaultImageQuayOrg := "redhat-appstudio-qe"
    defaultImageQuayOrgOAuth2Token := "tok"
    defaultImageTagExpiration := "6h" }

/-- C2: when the clone call fails (network, auth or missing ref, cases in
which go-git v5 still hands back a non-nil repository), the clone error is
discarded: the run is identical to one in which the clone reported no
error at all, and what comes back to the caller is exactly the outcome of
the remote creation, after a trace that proceeds from the clone call to
the remote-creation call. -/
theorem C2_clone_error_discarded (i : InstallAppStudio) (w : World)
    (e : String) (ev : List Event)
    (hPrep : dirPrepPhase i w = .ok (.ok (), ev))
    (_hFail : w.cloneErr = some e)
    (hRepo : w.cloneRepo = true) :
    cloneInfraDeployments i w = cloneInfraDeployments i { w with cloneErr := none } ∧
    cloneInfraDeployments i w =
      .ok (remoteOutcome w.createRemoteRes,
           ev ++ [Event.gitClone
                    ("https://github.com/" ++ i.infraDeploymentsOrganizationName ++ "/infra-deployments")
                    ("refs/heads/" ++ i.infraDeploymentsBranch)
                    i.infraDeploymentsCloneDir,
                  Event.createRemote i.localForkName
                    ("https://github.com/" ++ i.localGithubForkOrganization ++ "/infra-deployments.git")]) := by
  have key : ∀ w2 : World, dirPrepPhase i w2 = .ok (.ok (), ev) → w2.cloneRepo = true →
      cloneInfraDeployments i w2 =
        .ok (remoteOutcome w2.createRemoteRes,
             ev ++ [Event.gitClone
                      ("https://github.com/" ++ i.infraDeploymentsOrganizationName ++ "/infra-deployments")
                      ("refs/heads/" ++ i.infraDeploymentsBranch)
                      i.infraDeploymentsCloneDir,
                    Event.createRemote i.localForkName
                      ("https://github.com/" ++ i.localGithubForkOrganization ++ "/infra-deployments.git")]) := by
    intro w2 h1 h2
    simp only [cloneInfraDeployments, h1, h2, if_true]
    cases hr : w2.createRemoteRes <;> simp [remoteOutcome, hr]
  have hPrep2 : dirPrepPhase i { w with cloneErr := none } = .ok (.ok (), ev) := hPrep
  have hRepo2 : ({ w with cloneErr := none } : World).cloneRepo = true := hRepo
  exact ⟨(key w hPrep hRepo).trans (key _ hPrep2 hRepo2).symm, key w hPrep hRepo⟩

/-- Witness for C2 at a concrete world whose clone fails on the network
while the remote creation succeeds. -/
theorem C2_clone_error_discarded_witness :
    dirPrepPhase i0 { wExisting with cloneErr := some "network down" } =
      .ok (.ok (), [Event.statDir "/cwd/tmp/infra-deployments"]) ∧
    ({ wExisting with cloneErr := some "network down" } : World).cloneErr = some "network down" ∧
    ({ wExisting with cloneErr := some "network down" } : World).cloneRepo = true ∧
    cloneInfraDeployments i0 { wExisting with cloneErr := some "network down" } =
      .ok (remoteOutcome ({ wExisting with cloneErr := some "network down" } : World).createRemoteRes,
           [Event.statDir "/cwd/tmp/infra-deployments"] ++
             [Event.gitClone "https://github.com/acme/infra-deployments"
                "refs/heads/main" "/cwd/tmp/infra-deployments",
              Event.createRemote "qe" "https://github.com/acme-qe/infra-deployments.git"]) :=
  ⟨rfl, rfl, rfl,
   (C2_clone_error_discarded i0 { wExisting with cloneErr := some "network down" }
      "network down" [Event.statDir "/cwd/tmp/infra-deployments"] rfl rfl rfl).2⟩

/-- C9: two facts about cloneInfraDeployments.  First, when os.Stat fails
with an error other than not-exist (a permission error, say), the nil
FileInfo is dereferenced through dirInfo.IsDir() and the run panics
instead of returning a filesystem error.  Second, when the path exists as
a regular file rather than a directory, no removal call is ever made. -/
theorem C9_stat_error_nil_deref (i : InstallAppStudio) (w : World) :
    (∀ msg, w.statRes = .errOther msg →
      cloneInfraDeployments i w = .error .nilPointerDeref) ∧
    (w.statRes = .found false →
      ∀ p, Event.removeAll p ∉ resultEvents (cloneInfraDeployments i w)) := by
  constructor
  · intro msg h
    simp [cloneInfraDeployments, dirPrepPhase, h]
  · intro h p
    simp only [cloneInfraDeployments, dirPrepPhase, h]
    cases hr : w.cloneRepo
    · simp [resultEvents]
    · cases hcr : w.createRemoteRes <;> simp [resultEvents]

/-- Witness for C9: a permission error on os.Stat panics, and a regular
file at the clone path never triggers a removal. -/
theorem C9_stat_error_nil_deref_witness :
    ({ wExisting with statRes := .errOther "permission denied" } : World).statRes =
      .errOther "permission denied" ∧
    cloneInfraDeployments i0 { wExisting with statRes := .errOther "permission denied" } =
      .error .nilPointerDeref ∧
    Event.removeAll "/cwd/tmp/infra-deployments" ∉
      resultEvents (cloneInfraDeployments i0 { wExisting with statRes := .found false }) :=
  ⟨rfl,
   (C9_stat_error_nil_deref i0 { wExisting with statRes := .errOther "permission denied" }).1
     "permission denied" rfl,
   (C9_stat_error_nil_deref i0 { wExisting with statRes := .found false }).2
     rfl "/cwd/tmp/infra-deployments"⟩

/-- os.Setenv: point one variable at a new value. -/
def setEnv (env : Env) (key v : String) : Env :=
  fun n => if n = key then v else env n

/-- Alphabet of util.GenerateRandomString (devfile library, outside this
module): lowercase letters. -/
def letterRunes : List Char := "abcdefghijklmnopqrstuvwxyz".data

/-- util.GenerateRandomString (devfile library, outside this module):
n characters picked from the alphabet by n successive draws of the
process-wide random source, modelled as a stream of naturals. -/
def generateRandomString (rng : Nat → Nat) (n : Nat) : String :=
  String.mk ((List.range n).map (fun j => letterRunes.getD (rng j % letterRunes.length) 'a'))

/-- The random stream after k draws have been consumed. -/
def rngAdvance (rng : Nat → Nat) (k : Nat) : Nat → Nat :=
  fun j => rng (j + k)

/-- setInstallationEnvironments (install.go lines 117 to 128): write the
ten environment variables in program order.  TEST_BRANCH_ID consumes four
draws of the random source; the three utils.GetEnv reads happen on the
environment as already updated by the earlier writes (their keys are
disjoint from the written ones).  Returns the new environment and the
advanced random stream. -/
def setInstallationEnvironments (i : InstallAppStudio) (rng : Nat → Nat) (env : Env) :
    Env × (Nat → Nat) :=
  let env := setEnv env "MY_GITHUB_ORG" i.localGithubForkOrganization
  let env := setEnv env "MY_GITHUB_TOKEN" (getEnvD env "GITHUB_TOKEN" "")
  let env := setEnv env "MY_GIT_FORK_REMOTE" i.localForkName
  let env := setEnv env "TEST_BRANCH_ID" (generateRandomString rng 4)
  let env := setEnv env "QUAY_TOKEN" i.quayToken
  let env := setEnv env "IMAGE_CONTROLLER_QUAY_ORG" i.defaultImageQuayOrg
  let env := setEnv env "IMAGE_CONTROLLER_QUAY_TOKEN" i.defaultImageQuayOrgOAuth2Token
  let env := setEnv env "BUILD_SERVICE_IMAGE_TAG_EXPIRATION" i.defaultImageTagExpiration
  let env := setEnv env "PAC_GITHUB_APP_ID" (getEnvD env "E2E_PAC_GITHUB_APP_ID" "")
  let env := setEnv env "PAC_GITHUB_APP_PRIVATE_KEY" (getEnvD env "E2E_PAC_GITHUB_APP_PRIVATE_KEY" "")
  (env, rngAdvance rng 4)

/-- The empty process environment. -/
def env0 : Env := fun _ => ""

/-- C3 counterexample: running setInstallationEnvironments twice with the
same configuration does NOT leave every variable it sets at the value a
single run gives.  With the identity draw stream, the first run sets
TEST_BRANCH_ID from draws 0..3 and the second run from draws 4..7, so the
value after two runs differs from the value after one. -/
theorem C3_counterexample_test_branch_id :
    (setInstallationEnvironments i0
        (setInstallationEnvironments i0 (fun j => j) env0).2
        (setInstallationEnvironments i0 (fun j => j) env0).1).1 "TEST_BRANCH_ID" ≠
      (setInstallationEnvironments i0 (fun j => j) env0).1 "TEST_BRANCH_ID" := by
  decide

/-- C3 amended: setInstallationEnvironments is idempotent on every
variable except TEST_BRANCH_ID: a second run with the same configuration
rewrites each of the other nine variables to the value it already has,
while TEST_BRANCH_ID is regenerated from the next four draws of the
random source. -/
theorem C3_idempotent_except_test_branch_id (i : InstallAppStudio)
    (rng : Nat → Nat) (env : Env) (name : String)
    (h : name ≠ "TEST_BRANCH_ID") :
    (setInstallationEnvironments i (setInstallationEnvironments i rng env).2
        (setInstallationEnvironments i rng env).1).1 name =
      (setInstallationEnvironments i rng env).1 name ∧
    (setInstallationEnvironments i (setInstallationEnvironments i rng env).2
        (setInstallationEnvironments i rng env).1).1 "TEST_BRANCH_ID" =
      generateRandomString (rngAdvance rng 4) 4 := by
  constructor
  · simp only [setInstallationEnvironments, setEnv, getEnvD]
    simp
    split_ifs <;> simp_all
  · simp [setInstallationEnvironments, setEnv, getEnvD]

/-- Witness for C3 amended, at the QUAY_TOKEN variable. -/
theorem C3_idempotent_except_test_branch_id_witness :
    ("QUAY_TOKEN" : String) ≠ "TEST_BRANCH_ID" ∧
    (setInstallationEnvironments i0 (setInstallationEnvironments i0 (fun j => j) env0).2
        (setInstallationEnvironments i0 (fun j => j) env0).1).1 "QUAY_TOKEN" =
      (setInstallationEnvironments i0 (fun j => j) env0).1 "QUAY_TOKEN" :=
  ⟨by decide,
   (C3_idempotent_except_test_branch_id i0 (fun j => j) env0 "QUAY_TOKEN" (by decide)).1⟩

/-- previewInstallArgs (install.go line 37). -/
def previewInstallArgs : List String := ["preview", "--keycloak", "--toolchain"]

/-- InstallAppStudioPreviewMode (install.go lines 102 to 115): clone (abort
on its error), project the environment, run the bootstrap script in the
clone directory (abort on a non-zero exit), run the redirect fixup with
its return value ignored, and return whatever createE2EQuaySecret
returns.  The two post-install steps read the environment as updated by
the projection. -/
def InstallAppStudioPreviewMode (i : InstallAppStudio) (w : World) :
    Except GoPanic (Except InstallErr Unit × List Event) :=
  match cloneInfraDeployments i w with
  | .error p => .error p
  | .ok (.error e, evs) => .ok (.error e, evs)
  | .ok (.ok _, evs) =>
    let env1 := (setInstallationEnvironments i w.rng w.env).1
    let evs := evs ++ [Event.execCommand "hack/bootstrap-cluster.sh" previewInstallArgs
                         i.infraDeploymentsCloneDir]
    match w.bootstrapRes with
    | .error m => .ok (.error (.bootstrap m), evs)
    | .ok _ =>
      let w1 : World := { w with env := env1 }
      let r := createE2EQuaySecret w1
      .ok (r.1, evs ++ (addSPIOauthRedirectProxyUrl w1).2 ++ r.2)

/-- C7: the preview install is strictly sequential and fail-fast.  When
the clone step returns an error, the run stops there: the result and the
trace are those of the clone step alone, so neither the bootstrap script
nor any cluster fixup runs.  When the bootstrap script exits non-zero,
its error is what the caller gets and the trace ends at the script call:
the post-install fixups never run, and nothing after the clone call
removes the clone directory, so the clone is left in place.  When both
succeed, the error the caller sees is exactly the one of
createE2EQuaySecret, whose definition consults none of the
redirect-fixup outcomes: the deployment-restart step can never propagate
a failure. -/
theorem C7_sequential_fail_fast (i : InstallAppStudio) (w : World) :
    (∀ e ev, cloneInfraDeployments i w = .ok (.error e, ev) →
      InstallAppStudioPreviewMode i w = .ok (.error e, ev)) ∧
    (∀ ev m, cloneInfraDeployments i w = .ok (.ok (), ev) →
      w.bootstrapRes = .error m →
      InstallAppStudioPreviewMode i w =
        .ok (.error (.bootstrap m),
             ev ++ [Event.execCommand "hack/bootstrap-cluster.sh" previewInstallArgs
                      i.infraDeploymentsCloneDir])) ∧
    (∀ ev, cloneInfraDeployments i w = .ok (.ok (), ev) →
      w.bootstrapRes = .ok () →
      (InstallAppStudioPreviewMode i w).map Prod.fst =
        .ok (createE2EQuaySecret
              { w with env := (setInstallationEnvironments i w.rng w.env).1 }).1) := by
  refine ⟨?_, ?_, ?_⟩
  · intro e ev h
    simp [InstallAppStudioPreviewMode, h]
  · intro ev m h1 h2
    simp [InstallAppStudioPreviewMode, h1, h2]
  · intro ev h1 h2
    simp [InstallAppStudioPreviewMode, h1, h2, Except.map]

/-- Witness for C7: at concrete worlds, a failed remote creation stops the
run before the bootstrap call, a failed bootstrap stops it before any
cluster call, and a full run returns the quay-secret result. -/
theorem C7_sequential_fail_fast_witness :
    cloneInfraDeployments i0 { wExisting with createRemoteRes := .error "remote exists" } =
      .ok (.error (.gitRemote "remote exists"),
           [Event.statDir "/cwd/tmp/infra-deployments",
            Event.gitClone "https://github.com/acme/infra-deployments" "refs/heads/main"
              "/cwd/tmp/infra-deployments",
            Event.createRemote "qe" "https://github.com/acme-qe/infra-deployments.git"]) ∧
    InstallAppStudioPreviewMode i0 { wExisting with createRemoteRes := .error "remote exists" } =
      .ok (.error (.gitRemote "remote exists"),
           [Event.statDir "/cwd/tmp/infra-deployments",
            Event.gitClone "https://github.com/acme/infra-deployments" "refs/heads/main"
              "/cwd/tmp/infra-deployments",
            Event.createRemote "qe" "https://github.com/acme-qe/infra-deployments.git"]) ∧
    InstallAppStudioPreviewMode i0 { wExisting with bootstrapRes := .error "exit status 1" } =
      .ok (.error (.bootstrap "exit status 1"),
           [Event.statDir "/cwd/tmp/infra-deployments",
            Event.gitClone "https://github.com/acme/infra-deployments" "refs/heads/main"
              "/cwd/tmp/infra-deployments",
            Event.createRemote "qe" "https://github.com/acme-qe/infra-deployments.git"] ++
             [Event.execCommand "hack/bootstrap-cluster.sh" previewInstallArgs
                "/cwd/tmp/infra-deployments"]) ∧
    (InstallAppStudioPreviewMode i0 wExisting).map Prod.fst =
      .ok (createE2EQuaySecret
            { wExisting with
                env := (setInstallationEnvironments i0 wExisting.rng wExisting.env).1 }).1 :=
  ⟨rfl,
   (C7_sequential_fail_fast i0 { wExisting with createRemoteRes := .error "remote exists" }).1
     (.gitRemote "remote exists") _ rfl,
   (C7_sequential_fail_fast i0 { wExisting with bootstrapRes := .error "exit status 1" }).2.1
     _ "exit status 1" rfl rfl,
   (C7_sequential_fail_fast i0 wExisting).2.2 _ rfl rfl⟩

/-- C10: when the clone and the bootstrap both succeed, the run performs
the redirect fixup first and the quay-secret provisioning second (the
fixup trace precedes the secret trace), and the value the method returns
is exactly the result of createE2EQuaySecret: the fixup contributes
events but never the returned error. -/
theorem C10_fixup_then_secret (i : InstallAppStudio) (w : World) (ev : List Event)
    (h1 : cloneInfraDeployments i w = .ok (.ok (), ev))
    (h2 : w.bootstrapRes = .ok ()) :
    InstallAppStudioPreviewMode i w =
      .ok ((createE2EQuaySecret
              { w with env := (setInstallationEnvironments i w.rng w.env).1 }).1,
           (ev ++ [Event.execCommand "hack/bootstrap-cluster.sh" previewInstallArgs
                     i.infraDeploymentsCloneDir]) ++
             (addSPIOauthRedirectProxyUrl
               { w with env := (setInstallationEnvironments i w.rng w.env).1 }).2 ++
             (createE2EQuaySecret
               { w with env := (setInstallationEnvironments i w.rng w.env).1 }).2) := by
  simp [InstallAppStudioPreviewMode, h1, h2]

/-- Witness for C10 at a full successful run: the fixup is a no-op (the
redirect variable is unset), the secret phase runs after it, and the
returned value is the quay-secret result. -/
theorem C10_fixup_then_secret_witness :
    cloneInfraDeployments i0 wExisting =
      .ok (.ok (),
           [Event.statDir "/cwd/tmp/infra-deployments",
            Event.gitClone "https://github.com/acme/infra-deployments" "refs/heads/main"
              "/cwd/tmp/infra-deployments",
            Event.createRemote "qe" "https://github.com/acme-qe/infra-deployments.git"]) ∧
    wExisting.bootstrapRes = .ok () ∧
    InstallAppStudioPreviewMode i0 wExisting =
      .ok ((createE2EQuaySecret
              { wExisting with
                  env := (setInstallationEnvironments i0 wExisting.rng wExisting.env).1 }).1,
           ([Event.statDir "/cwd/tmp/infra-deployments",
             Event.gitClone "https://github.com/acme/infra-deployments" "refs/heads/main"
               "/cwd/tmp/infra-deployments",
             Event.createRemote "qe" "https://github.com/acme-qe/infra-deployments.git"] ++
              [Event.execCommand "hack/bootstrap-cluster.sh" previewInstallArgs
                 "/cwd/tmp/infra-deployments"]) ++
             (addSPIOauthRedirectProxyUrl
               { wExisting with
                   env := (setInstallationEnvironments i0 wExisting.rng wExisting.env).1 }).2 ++
             (createE2EQuaySecret
               { wExisting with
                   env := (setInstallationEnvironments i0 wExisting.rng wExisting.env).1 }).2) :=
  ⟨rfl, rfl, C10_fixup_then_secret i0 wExisting _ rfl rfl⟩
